import Mathlib

/-!
Verification development for the JNI boundary layer of
scalus-secp256k1-jni/native/scalus_secp256k1.c.

The file shallow-embeds the three JNI entry points
(isValidPubKey, ecdsaVerify, schnorrVerify) as pure Lean functions over an
abstract environment.  The external collaborators (libsecp256k1 primitives,
the JVM's GetByteArrayElements) are abstracted as boolean-valued parameters
of the environment, exactly as the C code treats them: each is an opaque
call that either succeeds or fails, deterministically in its arguments and
the shared context.  Each embedded function also produces a trace of the
boundary events the C code performs (context lookup, array-length reads,
buffer acquisitions and releases with their release mode, parse and verify
calls), so that ordering and resource-discipline properties are provable.

Buffers are byte lists; only their lengths and their identity as parse /
verify arguments matter to the boundary logic, so bytes are plain naturals.
-/

namespace ScalusSecp256k1

/-- Release mode passed to ReleaseByteArrayElements.  The C code only ever
uses JNI_ABORT (discard the native copy), but the commit mode exists in the
JNI interface, so the trace records which one was used. -/
inductive ReleaseMode where
| abort
| commit
deriving DecidableEq, Repr

/-- Boundary events performed by one call, in program order.  Slots number
the byte-array arguments in acquisition order within each entry point. -/
inductive Event where
| getContext
| getArrayLength (slot : Nat)
| acquire (slot : Nat)
| acquireFail (slot : Nat)
| ecPubkeyParseEv
| ecdsaSigParseEv
| ecdsaVerifyEv
| xonlyParseEv
| schnorrVerifyEv
| release (slot : Nat) (mode : ReleaseMode)
deriving DecidableEq, Repr

/-- The external secp256k1 primitives, abstracted as pure boolean functions
of the raw argument bytes (each primitive is deterministic given the shared
verification context; parsed objects are functions of the bytes they were
parsed from, so primitives taking parsed objects are modelled as functions
of the underlying bytes). -/
structure Secp where
ecPubkeyParseOk : List Nat → Bool
ecdsaSigParseOk : List Nat → Bool
ecdsaVerifyOk : List Nat → List Nat → List Nat → Bool
xonlyParseOk : List Nat → Bool
schnorrVerifyOk : List Nat → List Nat → List Nat → Bool

/-- The runtime environment of one call: whether get_context yields a
non-NULL context, whether GetByteArrayElements succeeds for each argument
slot, and the secp256k1 primitives. -/
structure NativeEnv where
ctxOk : Bool
acquireOk : Nat → Bool
secp : Secp

/-- Trace event for a GetByteArrayElements call: acquire on success,
acquireFail when it returns NULL. -/
def acqEvent (slot : Nat) (ok : Bool) : Event :=
if ok then Event.acquire slot else Event.acquireFail slot

/-- Embedding of Java_scalus_crypto_NativeSecp256k1_isValidPubKey
(scalus_secp256k1.c lines 62-93): get_context; NULL check; array length;
reject lengths outside {33, 65}; GetByteArrayElements; NULL check;
secp256k1_ec_pubkey_parse; release with JNI_ABORT; return parse result.
Returns the boolean result paired with the event trace. -/
def isValidPubKeyRun (env : NativeEnv) (pubKey : List Nat) :
    Bool × List Event :=
  let ev1 := [Event.getContext]
  if env.ctxOk = false then (false, ev1)
  else
    let ev2 := ev1 ++ [Event.getArrayLength 0]
    if pubKey.length ≠ 33 ∧ pubKey.length ≠ 65 then (false, ev2)
    else if env.acquireOk 0 = false then
      (false, ev2 ++ [Event.acquireFail 0])
    else
      (env.secp.ecPubkeyParseOk pubKey,
        ev2 ++ [Event.acquire 0, Event.ecPubkeyParseEv,
          Event.release 0 ReleaseMode.abort])

/-- Boolean result of isValidPubKey. -/
def isValidPubKey (env : NativeEnv) (pubKey : List Nat) : Bool :=
(isValidPubKeyRun env pubKey).1

/-- Embedding of Java_scalus_crypto_NativeSecp256k1_ecdsaVerify
(scalus_secp256k1.c lines 105-162).  Slots: 0 = msg32, 1 = sig64,
2 = pubKey33, in acquisition order.  The three length reads short-circuit
as the C || does; all three buffers are acquired before the NULL check;
on partial acquisition the successfully acquired views are released; the
pubkey parse, signature parse and verify short-circuit through the cleanup
label, which releases all three views with JNI_ABORT. -/
def ecdsaVerifyRun (env : NativeEnv) (msg32 sig64 pubKey33 : List Nat) :
    Bool × List Event :=
  let ev1 := [Event.getContext]
  if env.ctxOk = false then (false, ev1)
  else
    let ev2 := ev1 ++ [Event.getArrayLength 0]
    if msg32.length ≠ 32 then (false, ev2)
    else
      let ev3 := ev2 ++ [Event.getArrayLength 1]
      if sig64.length ≠ 64 then (false, ev3)
      else
        let ev4 := ev3 ++ [Event.getArrayLength 2]
        if pubKey33.length ≠ 33 then (false, ev4)
        else
          let a0 := env.acquireOk 0
          let a1 := env.acquireOk 1
          let a2 := env.acquireOk 2
          let evA := ev4 ++ [acqEvent 0 a0, acqEvent 1 a1, acqEvent 2 a2]
          if a0 = false ∨ a1 = false ∨ a2 = false then
            (false, evA
              ++ (if a0 then [Event.release 0 ReleaseMode.abort] else [])
              ++ (if a1 then [Event.release 1 ReleaseMode.abort] else [])
              ++ (if a2 then [Event.release 2 ReleaseMode.abort] else []))
          else
            let cleanup := [Event.release 0 ReleaseMode.abort,
              Event.release 1 ReleaseMode.abort,
              Event.release 2 ReleaseMode.abort]
            if env.secp.ecPubkeyParseOk pubKey33 = false then
              (false, evA ++ [Event.ecPubkeyParseEv] ++ cleanup)
            else if env.secp.ecdsaSigParseOk sig64 = false then
              (false, evA ++ [Event.ecPubkeyParseEv, Event.ecdsaSigParseEv]
                ++ cleanup)
            else
              (env.secp.ecdsaVerifyOk sig64 msg32 pubKey33,
                evA ++ [Event.ecPubkeyParseEv, Event.ecdsaSigParseEv,
                  Event.ecdsaVerifyEv] ++ cleanup)

/-- Boolean result of ecdsaVerify. -/
def ecdsaVerify (env : NativeEnv) (msg32 sig64 pubKey33 : List Nat) : Bool :=
(ecdsaVerifyRun env msg32 sig64 pubKey33).1

/-- Embedding of Java_scalus_crypto_NativeSecp256k1_schnorrVerify
(scalus_secp256k1.c lines 175-231).  Slots: 0 = sig64, 1 = msg,
2 = pubKey32, in acquisition order.  Length checks cover sig64 and pubKey32
only (short-circuiting); the message length is then read with no
constraint; acquisition, NULL check, x-only parse and verification mirror
the ECDSA path through the same cleanup-label discipline. -/
def schnorrVerifyRun (env : NativeEnv) (sig64 msg pubKey32 : List Nat) :
    Bool × List Event :=
  let ev1 := [Event.getContext]
  if env.ctxOk = false then (false, ev1)
  else
    let ev2 := ev1 ++ [Event.getArrayLength 0]
    if sig64.length ≠ 64 then (false, ev2)
    else
      let ev3 := ev2 ++ [Event.getArrayLength 2]
      if pubKey32.length ≠ 32 then (false, ev3)
      else
        let ev4 := ev3 ++ [Event.getArrayLength 1]
        let a0 := env.acquireOk 0
        let a1 := env.acquireOk 1
        let a2 := env.acquireOk 2
        let evA := ev4 ++ [acqEvent 0 a0, acqEvent 1 a1, acqEvent 2 a2]
        if a0 = false ∨ a1 = false ∨ a2 = false then
          (false, evA
            ++ (if a0 then [Event.release 0 ReleaseMode.abort] else [])
            ++ (if a1 then [Event.release 1 ReleaseMode.abort] else [])
            ++ (if a2 then [Event.release 2 ReleaseMode.abort] else []))
        else
          let cleanup := [Event.release 0 ReleaseMode.abort,
            Event.release 1 ReleaseMode.abort,
            Event.release 2 ReleaseMode.abort]
          if env.secp.xonlyParseOk pubKey32 = false then
            (false, evA ++ [Event.xonlyParseEv] ++ cleanup)
          else
            (env.secp.schnorrVerifyOk sig64 msg pubKey32,
              evA ++ [Event.xonlyParseEv, Event.schnorrVerifyEv] ++ cleanup)

/-- Boolean result of schnorrVerify. -/
def schnorrVerify (env : NativeEnv) (sig64 msg pubKey32 : List Nat) : Bool :=
(schnorrVerifyRun env sig64 msg pubKey32).1

/-- Slots of the successfully acquired buffer views, in trace order. -/
def acquiredSlots (tr : List Event) : List Nat :=
tr.filterMap fun e => match e with
| Event.acquire s => some s
| _ => none

/-- Slots of the released buffer views, in trace order. -/
def releasedSlots (tr : List Event) : List Nat :=
tr.filterMap fun e => match e with
| Event.release s _ => some s
| _ => none

/-- Checks that every release event in a trace uses JNI_ABORT. -/
def allReleasesAbort (tr : List Event) : Bool :=
tr.all fun e => match e with
| Event.release _ md => md == ReleaseMode.abort
| _ => true

/-- JNI semantics of releasing a native view of a caller array: JNI_ABORT
discards the native copy, leaving the caller's array at its original
contents; commit mode copies the native buffer back. -/
def releasedContents (orig native : List Nat) (md : ReleaseMode) : List Nat :=
match md with
| ReleaseMode.abort => orig
| ReleaseMode.commit => native

/-- An environment in which the context exists, every acquisition succeeds
and every primitive reports success: used as a concrete evaluation point. -/
def secpAllTrue : Secp :=
⟨fun _ => true, fun _ => true, fun _ _ _ => true, fun _ => true,
  fun _ _ _ => true⟩

/-- All-succeeding runtime environment. -/
def envAllTrue : NativeEnv :=
⟨true, fun _ => true, secpAllTrue⟩

/-- Environment whose context construction failed (ctx == NULL). -/
def envNoCtx : NativeEnv :=
⟨false, fun _ => true, secpAllTrue⟩

/-- C1: ecdsaVerify returns true iff all three lengths match, the public
key parses, the compact signature parses and the external ECDSA primitive
succeeds; and a public-key parse failure short-circuits before the
signature is parsed.  The hypotheses fix a working runtime (non-NULL
context, successful JNI buffer acquisition), which are environment
conditions, not properties of the three buffers the claim ranges over. -/
theorem ecdsaVerify_iff_all_steps (env : NativeEnv)
    (msg32 sig64 pubKey33 : List Nat)
    (hctx : env.ctxOk = true) (hacq : ∀ i, env.acquireOk i = true) :
    (ecdsaVerify env msg32 sig64 pubKey33 = true ↔
      msg32.length = 32 ∧ sig64.length = 64 ∧ pubKey33.length = 33 ∧
      env.secp.ecPubkeyParseOk pubKey33 = true ∧
      env.secp.ecdsaSigParseOk sig64 = true ∧
      env.secp.ecdsaVerifyOk sig64 msg32 pubKey33 = true) ∧
    (env.secp.ecPubkeyParseOk pubKey33 = false →
      Event.ecdsaSigParseEv ∉ (ecdsaVerifyRun env msg32 sig64 pubKey33).2) := by
  have h0 := hacq 0
  have h1 := hacq 1
  have h2 := hacq 2
  by_cases hm : msg32.length = 32 <;>
    by_cases hs : sig64.length = 64 <;>
      by_cases hp : pubKey33.length = 33 <;>
        cases hpk : env.secp.ecPubkeyParseOk pubKey33 <;>
          cases hsg : env.secp.ecdsaSigParseOk sig64 <;>
            simp [ecdsaVerify, ecdsaVerifyRun, hctx, h0, h1, h2, acqEvent,
              hm, hs, hp, hpk, hsg]

/-- C1 witness: at an all-succeeding environment and correctly sized
buffers, the equivalence holds and evaluates on the success side. -/
theorem ecdsaVerify_iff_all_steps_witness :
    envAllTrue.ctxOk = true ∧ (∀ i, envAllTrue.acquireOk i = true) ∧
    ((ecdsaVerify envAllTrue (List.replicate 32 0) (List.replicate 64 0)
        (List.replicate 33 0) = true ↔
      (List.replicate 32 (0 : Nat)).length = 32 ∧
      (List.replicate 64 (0 : Nat)).length = 64 ∧
      (List.replicate 33 (0 : Nat)).length = 33 ∧
      envAllTrue.secp.ecPubkeyParseOk (List.replicate 33 0) = true ∧
      envAllTrue.secp.ecdsaSigParseOk (List.replicate 64 0) = true ∧
      envAllTrue.secp.ecdsaVerifyOk (List.replicate 64 0)
        (List.replicate 32 0) (List.replicate 33 0) = true) ∧
    (envAllTrue.secp.ecPubkeyParseOk (List.replicate 33 0) = false →
      Event.ecdsaSigParseEv ∉ (ecdsaVerifyRun envAllTrue (List.replicate 32 0)
        (List.replicate 64 0) (List.replicate 33 0)).2)) :=
  ⟨rfl, fun _ => rfl,
    ecdsaVerify_iff_all_steps envAllTrue (List.replicate 32 0)
      (List.replicate 64 0) (List.replicate 33 0) rfl (fun _ => rfl)⟩

/-- C2: schnorrVerify returns true iff the signature is 64 bytes, the key
is 32 bytes, the key parses as x-only and the BIP-340 primitive succeeds
over the raw message of arbitrary length (msg is unconstrained in the
equivalence); an x-only parse failure short-circuits before verification. -/
theorem schnorrVerify_iff_all_steps (env : NativeEnv)
    (sig64 msg pubKey32 : List Nat)
    (hctx : env.ctxOk = true) (hacq : ∀ i, env.acquireOk i = true) :
    (schnorrVerify env sig64 msg pubKey32 = true ↔
      sig64.length = 64 ∧ pubKey32.length = 32 ∧
      env.secp.xonlyParseOk pubKey32 = true ∧
      env.secp.schnorrVerifyOk sig64 msg pubKey32 = true) ∧
    (env.secp.xonlyParseOk pubKey32 = false →
      Event.schnorrVerifyEv ∉ (schnorrVerifyRun env sig64 msg pubKey32).2) := by
  have h0 := hacq 0
  have h1 := hacq 1
  have h2 := hacq 2
  by_cases hs : sig64.length = 64 <;>
    by_cases hp : pubKey32.length = 32 <;>
      cases hpk : env.secp.xonlyParseOk pubKey32 <;>
        simp [schnorrVerify, schnorrVerifyRun, hctx, h0, h1, h2, acqEvent,
          hs, hp, hpk]

/-- C2 witness: instantiated at the all-succeeding environment with a
64-byte signature, an empty message and a 32-byte key. -/
theorem schnorrVerify_iff_all_steps_witness :
    envAllTrue.ctxOk = true ∧ (∀ i, envAllTrue.acquireOk i = true) ∧
    ((schnorrVerify envAllTrue (List.replicate 64 0) [] (List.replicate 32 0)
        = true ↔
      (List.replicate 64 (0 : Nat)).length = 64 ∧
      (List.replicate 32 (0 : Nat)).length = 32 ∧
      envAllTrue.secp.xonlyParseOk (List.replicate 32 0) = true ∧
      envAllTrue.secp.schnorrVerifyOk (List.replicate 64 0) []
        (List.replicate 32 0) = true) ∧
    (envAllTrue.secp.xonlyParseOk (List.replicate 32 0) = false →
      Event.schnorrVerifyEv ∉ (schnorrVerifyRun envAllTrue
        (List.replicate 64 0) [] (List.replicate 32 0)).2)) :=
  ⟨rfl, fun _ => rfl,
    schnorrVerify_iff_all_steps envAllTrue (List.replicate 64 0) []
      (List.replicate 32 0) rfl (fun _ => rfl)⟩

/-- C3: isValidPubKey returns true iff the buffer length is 33 or 65 and
the buffer parses as a curve point; any other length yields false and no
parse is attempted, and no cryptographic verification call occurs on any
path of this operation. -/
theorem isValidPubKey_iff_parse (env : NativeEnv) (pubKey : List Nat)
    (hctx : env.ctxOk = true) (hacq : ∀ i, env.acquireOk i = true) :
    (isValidPubKey env pubKey = true ↔
      (pubKey.length = 33 ∨ pubKey.length = 65) ∧
      env.secp.ecPubkeyParseOk pubKey = true) ∧
    (pubKey.length ≠ 33 → pubKey.length ≠ 65 →
      isValidPubKey env pubKey = false ∧
      Event.ecPubkeyParseEv ∉ (isValidPubKeyRun env pubKey).2) ∧
    (Event.ecdsaVerifyEv ∉ (isValidPubKeyRun env pubKey).2 ∧
      Event.schnorrVerifyEv ∉ (isValidPubKeyRun env pubKey).2) := by
  have h0 := hacq 0
  by_cases h33 : pubKey.length = 33 <;>
    by_cases h65 : pubKey.length = 65 <;>
      cases hpk : env.secp.ecPubkeyParseOk pubKey <;>
        simp [isValidPubKey, isValidPubKeyRun, hctx, h0, h33, h65, hpk]

/-- C3 witness: instantiated at the all-succeeding environment with a
33-byte buffer. -/
theorem isValidPubKey_iff_parse_witness :
    envAllTrue.ctxOk = true ∧ (∀ i, envAllTrue.acquireOk i = true) ∧
    ((isValidPubKey envAllTrue (List.replicate 33 0) = true ↔
      ((List.replicate 33 (0 : Nat)).length = 33 ∨
        (List.replicate 33 (0 : Nat)).length = 65) ∧
      envAllTrue.secp.ecPubkeyParseOk (List.replicate 33 0) = true) ∧
    ((List.replicate 33 (0 : Nat)).length ≠ 33 →
      (List.replicate 33 (0 : Nat)).length ≠ 65 →
      isValidPubKey envAllTrue (List.replicate 33 0) = false ∧
      Event.ecPubkeyParseEv ∉
        (isValidPubKeyRun envAllTrue (List.replicate 33 0)).2) ∧
    (Event.ecdsaVerifyEv ∉ (isValidPubKeyRun envAllTrue
        (List.replicate 33 0)).2 ∧
      Event.schnorrVerifyEv ∉ (isValidPubKeyRun envAllTrue
        (List.replicate 33 0)).2)) :=
  ⟨rfl, fun _ => rfl,
    isValidPubKey_iff_parse envAllTrue (List.replicate 33 0) rfl
      (fun _ => rfl)⟩

/-- C4: each operation is a total function into Bool (it is a Lean
function, hence terminates on every input, including empty and all-zero
buffers), and every failure — missing context, wrong length, acquisition
failure, parse failure, cryptographic failure — collapses to false: a true
result certifies that every step of that operation succeeded. -/
theorem verify_ops_total_collapse :
    ∀ (env : NativeEnv) (pk m s p msg : List Nat),
      (isValidPubKey env pk = true →
        env.ctxOk = true ∧ (pk.length = 33 ∨ pk.length = 65) ∧
        env.acquireOk 0 = true ∧ env.secp.ecPubkeyParseOk pk = true) ∧
      (ecdsaVerify env m s p = true →
        env.ctxOk = true ∧ m.length = 32 ∧ s.length = 64 ∧ p.length = 33 ∧
        env.acquireOk 0 = true ∧ env.acquireOk 1 = true ∧
        env.acquireOk 2 = true ∧
        env.secp.ecPubkeyParseOk p = true ∧
        env.secp.ecdsaSigParseOk s = true ∧
        env.secp.ecdsaVerifyOk s m p = true) ∧
      (schnorrVerify env s msg p = true →
        env.ctxOk = true ∧ s.length = 64 ∧ p.length = 32 ∧
        env.acquireOk 0 = true ∧ env.acquireOk 1 = true ∧
        env.acquireOk 2 = true ∧
        env.secp.xonlyParseOk p = true ∧
        env.secp.schnorrVerifyOk s msg p = true) := by
  intro env pk m s p msg
  refine ⟨?_, ?_, ?_⟩
  · cases hc : env.ctxOk <;>
      by_cases h33 : pk.length = 33 <;>
        by_cases h65 : pk.length = 65 <;>
          cases ha : env.acquireOk 0 <;>
            simp [isValidPubKey, isValidPubKeyRun, hc, h33, h65, ha]
  · cases hc : env.ctxOk <;>
      by_cases hm : m.length = 32 <;>
        by_cases hs : s.length = 64 <;>
          by_cases hp : p.length = 33 <;>
            cases ha0 : env.acquireOk 0 <;>
              cases ha1 : env.acquireOk 1 <;>
                cases ha2 : env.acquireOk 2 <;>
                  cases hpk : env.secp.ecPubkeyParseOk p <;>
                    cases hsg : env.secp.ecdsaSigParseOk s <;>
                      simp [ecdsaVerify, ecdsaVerifyRun, hc, hm, hs, hp,
                        ha0, ha1, ha2, hpk, hsg]
  · cases hc : env.ctxOk <;>
      by_cases hs : s.length = 64 <;>
        by_cases hp : p.length = 32 <;>
          cases ha0 : env.acquireOk 0 <;>
            cases ha1 : env.acquireOk 1 <;>
              cases ha2 : env.acquireOk 2 <;>
                cases hpk : env.secp.xonlyParseOk p <;>
                  simp [schnorrVerify, schnorrVerifyRun, hc, hs, hp,
                    ha0, ha1, ha2, hpk]

/-- C4 witness: a successful call at the all-succeeding environment, from
which the theorem certifies that every step succeeded. -/
theorem verify_ops_total_collapse_witness :
    isValidPubKey envAllTrue (List.replicate 33 0) = true ∧
    (envAllTrue.ctxOk = true ∧
      ((List.replicate 33 (0 : Nat)).length = 33 ∨
        (List.replicate 33 (0 : Nat)).length = 65) ∧
      envAllTrue.acquireOk 0 = true ∧
      envAllTrue.secp.ecPubkeyParseOk (List.replicate 33 0) = true) :=
  ⟨by decide,
    (verify_ops_total_collapse envAllTrue (List.replicate 33 0)
      (List.replicate 32 0) (List.replicate 64 0) (List.replicate 33 0)
      []).1 (by decide)⟩

/-- C5: on every exit path of every operation, the successfully acquired
buffer views are exactly the released ones, in the same order, each
acquired and released exactly once (the acquired-slot list has no
duplicates, and the released-slot list equals it). -/
theorem acquire_release_balanced :
    ∀ (env : NativeEnv) (pk m s p sg msg pk2 : List Nat),
      (releasedSlots (isValidPubKeyRun env pk).2 =
          acquiredSlots (isValidPubKeyRun env pk).2 ∧
        (acquiredSlots (isValidPubKeyRun env pk).2).Nodup) ∧
      (releasedSlots (ecdsaVerifyRun env m s p).2 =
          acquiredSlots (ecdsaVerifyRun env m s p).2 ∧
        (acquiredSlots (ecdsaVerifyRun env m s p).2).Nodup) ∧
      (releasedSlots (schnorrVerifyRun env sg msg pk2).2 =
          acquiredSlots (schnorrVerifyRun env sg msg pk2).2 ∧
        (acquiredSlots (schnorrVerifyRun env sg msg pk2).2).Nodup) := by
  intro env pk m s p sg msg pk2
  refine ⟨?_, ?_, ?_⟩
  · simp only [isValidPubKeyRun]
    repeat' split
    all_goals simp_all [acquiredSlots, releasedSlots]
  · simp only [ecdsaVerifyRun]
    repeat' split
    all_goals simp_all [acquiredSlots, releasedSlots, acqEvent]
  · simp only [schnorrVerifyRun]
    repeat' split
    all_goals simp_all [acquiredSlots, releasedSlots, acqEvent]

/-- C6 counterexample: a wrong-length call does trigger context
acquisition.  The empty buffer has length outside {33, 65}, yet the trace
of isValidPubKey on it contains the get_context event: in the source,
get_context() runs at line 67, before the length check at line 73. -/
theorem wrong_length_still_gets_context :
    ([] : List Nat).length ≠ 33 ∧ ([] : List Nat).length ≠ 65 ∧
    isValidPubKey envAllTrue [] = false ∧
    Event.getContext ∈ (isValidPubKeyRun envAllTrue []).2 ∧
    Event.getContext ∈ (ecdsaVerifyRun envAllTrue [] [] []).2 := by
  decide

/-- C6 amended: a wrong-length input yields false with no buffer view ever
acquired, but the shared context is acquired first — get_context is the
first event of every call, including wrong-length ones — so the rejection
precedes buffer acquisition and parsing, not context acquisition. -/
theorem wrong_length_rejected_before_buffers (env : NativeEnv) :
    (∀ pk : List Nat, pk.length ≠ 33 → pk.length ≠ 65 →
      isValidPubKey env pk = false ∧
      acquiredSlots (isValidPubKeyRun env pk).2 = [] ∧
      (isValidPubKeyRun env pk).2.head? = some Event.getContext) ∧
    (∀ m s p : List Nat,
      m.length ≠ 32 ∨ s.length ≠ 64 ∨ p.length ≠ 33 →
      ecdsaVerify env m s p = false ∧
      acquiredSlots (ecdsaVerifyRun env m s p).2 = [] ∧
      (ecdsaVerifyRun env m s p).2.head? = some Event.getContext) ∧
    (∀ sg msg p : List Nat, sg.length ≠ 64 ∨ p.length ≠ 32 →
      schnorrVerify env sg msg p = false ∧
      acquiredSlots (schnorrVerifyRun env sg msg p).2 = [] ∧
      (schnorrVerifyRun env sg msg p).2.head? = some Event.getContext) := by
  refine ⟨?_, ?_, ?_⟩
  · intro pk h33 h65
    cases hc : env.ctxOk <;>
      simp [isValidPubKey, isValidPubKeyRun, hc, h33, h65, acquiredSlots]
  · intro m s p hlen
    cases hc : env.ctxOk <;>
      by_cases hm : m.length = 32 <;>
        by_cases hs : s.length = 64 <;>
          by_cases hp : p.length = 33 <;>
            simp_all [ecdsaVerify, ecdsaVerifyRun, acquiredSlots]
  · intro sg msg p hlen
    cases hc : env.ctxOk <;>
      by_cases hs : sg.length = 64 <;>
        by_cases hp : p.length = 32 <;>
          simp_all [schnorrVerify, schnorrVerifyRun, acquiredSlots]

/-- C6 amended witness: the empty buffer is rejected with no acquisition
and with get_context as the first event. -/
theorem wrong_length_rejected_before_buffers_witness :
    isValidPubKey envAllTrue [] = false ∧
    acquiredSlots (isValidPubKeyRun envAllTrue []).2 = [] ∧
    (isValidPubKeyRun envAllTrue []).2.head? = some Event.getContext :=
  (wrong_length_rejected_before_buffers envAllTrue).1 [] (by decide)
    (by decide)

/-- C7: when context construction failed (ctx is NULL), every operation
returns false on every input, immediately: the trace is the bare
get_context event, with no buffer ever touched and no fault raised. -/
theorem no_context_all_false (env : NativeEnv) (h : env.ctxOk = false) :
    ∀ pk m s p msg : List Nat,
      isValidPubKey env pk = false ∧
      (isValidPubKeyRun env pk).2 = [Event.getContext] ∧
      ecdsaVerify env m s p = false ∧
      (ecdsaVerifyRun env m s p).2 = [Event.getContext] ∧
      schnorrVerify env s msg p = false ∧
      (schnorrVerifyRun env s msg p).2 = [Event.getContext] := by
  intro pk m s p msg
  simp [isValidPubKey, isValidPubKeyRun, ecdsaVerify, ecdsaVerifyRun,
    schnorrVerify, schnorrVerifyRun, h]

/-- C7 witness: at the failed-construction environment, with well-sized
buffers, all three operations return false. -/
theorem no_context_all_false_witness :
    envNoCtx.ctxOk = false ∧
    (isValidPubKey envNoCtx (List.replicate 33 0) = false ∧
      (isValidPubKeyRun envNoCtx (List.replicate 33 0)).2 =
        [Event.getContext] ∧
      ecdsaVerify envNoCtx (List.replicate 32 0) (List.replicate 64 0)
        (List.replicate 33 0) = false ∧
      (ecdsaVerifyRun envNoCtx (List.replicate 32 0) (List.replicate 64 0)
        (List.replicate 33 0)).2 = [Event.getContext] ∧
      schnorrVerify envNoCtx (List.replicate 64 0) []
        (List.replicate 33 0) = false ∧
      (schnorrVerifyRun envNoCtx (List.replicate 64 0) []
        (List.replicate 33 0)).2 = [Event.getContext]) :=
  ⟨rfl, no_context_all_false envNoCtx rfl (List.replicate 33 0)
    (List.replicate 32 0) (List.replicate 64 0) (List.replicate 33 0) []⟩

/-- C10: every release event of every operation uses JNI_ABORT, and under
JNI semantics a JNI_ABORT release leaves the caller's array at its
original contents; hence no operation modifies any input buffer. -/
theorem releases_use_abort_mode :
    ∀ (env : NativeEnv) (pk m s p sg msg pk2 orig native : List Nat),
      allReleasesAbort (isValidPubKeyRun env pk).2 = true ∧
      allReleasesAbort (ecdsaVerifyRun env m s p).2 = true ∧
      allReleasesAbort (schnorrVerifyRun env sg msg pk2).2 = true ∧
      releasedContents orig native ReleaseMode.abort = orig := by
  intro env pk m s p sg msg pk2 orig native
  refine ⟨?_, ?_, ?_, rfl⟩
  · simp only [isValidPubKeyRun]
    repeat' split
    all_goals simp_all [allReleasesAbort]
  · simp only [ecdsaVerifyRun]
    repeat' split
    all_goals simp_all [allReleasesAbort, acqEvent]
  · simp only [schnorrVerifyRun]
    repeat' split
    all_goals simp_all [allReleasesAbort, acqEvent]

/-- State of the process-wide context globals (ctx and ctx_init_once,
scalus_secp256k1.c lines 20-21): either initialization has not run, or it
has run and recorded whether secp256k1_context_create returned non-NULL. -/
inductive CtxState where
| uninit
| ready (ok : Bool)
deriving DecidableEq, Repr

/-- Process environment for the stateful model: whether context creation
would succeed, plus the per-call JNI and secp256k1 behaviour. -/
structure ProcEnv where
createOk : Bool
acquireOk : Nat → Bool
secp : Secp

/-- Sequential semantics of get_context (scalus_secp256k1.c lines 34-37):
on first use it runs init_context, storing the creation outcome in the
process-wide state; afterwards it returns the stored context.  Yields
whether the returned context is non-NULL, and the new state. -/
def getContextStep (createOk : Bool) : CtxState → Bool × CtxState
| CtxState.uninit => (createOk, CtxState.ready createOk)
| CtxState.ready ok => (ok, CtxState.ready ok)

/-- Process state visible to a call: the context globals plus arbitrary
further state of type α that the operations must not touch. -/
structure World (α : Type) where
ctxState : CtxState
other : α

/-- Stateful isValidPubKey: runs get_context against the process state,
then the call body; the only state it may change is the context state. -/
def isValidPubKeyStateful {α : Type} (pe : ProcEnv) (w : World α)
    (pubKey : List Nat) : Bool × World α :=
  let r := getContextStep pe.createOk w.ctxState
  (isValidPubKey ⟨r.1, pe.acquireOk, pe.secp⟩ pubKey, ⟨r.2, w.other⟩)

/-- Stateful ecdsaVerify, analogous to isValidPubKeyStateful. -/
def ecdsaVerifyStateful {α : Type} (pe : ProcEnv) (w : World α)
    (msg32 sig64 pubKey33 : List Nat) : Bool × World α :=
  let r := getContextStep pe.createOk w.ctxState
  (ecdsaVerify ⟨r.1, pe.acquireOk, pe.secp⟩ msg32 sig64 pubKey33,
    ⟨r.2, w.other⟩)

/-- Stateful schnorrVerify, analogous to isValidPubKeyStateful. -/
def schnorrVerifyStateful {α : Type} (pe : ProcEnv) (w : World α)
    (sig64 msg pubKey32 : List Nat) : Bool × World α :=
  let r := getContextStep pe.createOk w.ctxState
  (schnorrVerify ⟨r.1, pe.acquireOk, pe.secp⟩ sig64 msg pubKey32,
    ⟨r.2, w.other⟩)

/-- C9: each operation is a pure function of its buffers and the context
state.  For every operation and every starting process state: the result
is exactly the pure function of the buffers and the context produced by
get_context; no state outside the context changes; and an immediately
repeated call with byte-for-byte identical buffers returns the identical
boolean and leaves the state fixed (referential transparency). -/
theorem verify_ops_pure :
    ∀ {α : Type} (pe : ProcEnv) (w : World α) (pk m s p sg msg pk2 : List Nat),
      ((isValidPubKeyStateful pe w pk).1 =
          isValidPubKey ⟨(getContextStep pe.createOk w.ctxState).1,
            pe.acquireOk, pe.secp⟩ pk ∧
        (isValidPubKeyStateful pe w pk).2.other = w.other ∧
        isValidPubKeyStateful pe ((isValidPubKeyStateful pe w pk).2) pk =
          isValidPubKeyStateful pe w pk) ∧
      ((ecdsaVerifyStateful pe w m s p).1 =
          ecdsaVerify ⟨(getContextStep pe.createOk w.ctxState).1,
            pe.acquireOk, pe.secp⟩ m s p ∧
        (ecdsaVerifyStateful pe w m s p).2.other = w.other ∧
        ecdsaVerifyStateful pe ((ecdsaVerifyStateful pe w m s p).2) m s p =
          ecdsaVerifyStateful pe w m s p) ∧
      ((schnorrVerifyStateful pe w sg msg pk2).1 =
          schnorrVerify ⟨(getContextStep pe.createOk w.ctxState).1,
            pe.acquireOk, pe.secp⟩ sg msg pk2 ∧
        (schnorrVerifyStateful pe w sg msg pk2).2.other = w.other ∧
        schnorrVerifyStateful pe ((schnorrVerifyStateful pe w sg msg pk2).2)
            sg msg pk2 =
          schnorrVerifyStateful pe w sg msg pk2) := by
  intro α pe w pk m s p sg msg pk2
  cases w with
  | mk st oth =>
    cases st <;>
      simp [isValidPubKeyStateful, ecdsaVerifyStateful,
        schnorrVerifyStateful, getContextStep]

/-- State of the pthread_once control word guarding context construction:
not yet claimed, claimed by the winning thread t which is running
init_context, or completed.  This models the contract of pthread_once as
used at scalus_secp256k1.c line 35: first caller wins and runs the
initializer, concurrent callers block until it completes, later callers
pass through. -/
inductive OnceFlag where
| notStarted
| running (t : Nat)
| done
deriving DecidableEq, Repr

/-- Program counter of one thread inside get_context: about to call
pthread_once, running init_context after winning, blocked waiting for the
winner, or returned from get_context. -/
inductive OncePC where
| start
| initializing
| waiting
| ret
deriving DecidableEq, Repr

/-- Process state for concurrent get_context calls: the once control word,
the ctx global (none = NULL), how many times init_context has executed,
and each thread's program counter. -/
structure OnceSys where
flag : OnceFlag
ctx : Option Nat
initCount : Nat
pc : Nat → OncePC

/-- Interleaving semantics of concurrent get_context calls through
pthread_once: a thread at the call either wins an unclaimed control word
and runs init_context, or finds it claimed and waits, or finds it done and
returns; the winner completes init_context by storing the creation result
(any c, including none for a failed creation) and marking the word done;
waiters return once the word is done. -/
inductive OnceStep : OnceSys → OnceSys → Prop
| win (s : OnceSys) (t : Nat) :
    s.flag = OnceFlag.notStarted → s.pc t = OncePC.start →
    OnceStep s (OnceSys.mk (OnceFlag.running t) s.ctx s.initCount
      (Function.update s.pc t OncePC.initializing))
| finish (s : OnceSys) (t : Nat) (c : Option Nat) :
    s.flag = OnceFlag.running t → s.pc t = OncePC.initializing →
    OnceStep s (OnceSys.mk OnceFlag.done c (s.initCount + 1)
      (Function.update s.pc t OncePC.ret))
| seeRunning (s : OnceSys) (t u : Nat) :
    s.flag = OnceFlag.running u → s.pc t = OncePC.start →
    OnceStep s (OnceSys.mk s.flag s.ctx s.initCount
      (Function.update s.pc t OncePC.waiting))
| seeDone (s : OnceSys) (t : Nat) :
    s.flag = OnceFlag.done → s.pc t = OncePC.start →
    OnceStep s (OnceSys.mk s.flag s.ctx s.initCount
      (Function.update s.pc t OncePC.ret))
| wake (s : OnceSys) (t : Nat) :
    s.flag = OnceFlag.done → s.pc t = OncePC.waiting →
    OnceStep s (OnceSys.mk s.flag s.ctx s.initCount
      (Function.update s.pc t OncePC.ret))

/-- Initial process state: PTHREAD_ONCE_INIT, ctx NULL, no construction
yet, every thread before its first get_context call. -/
def onceInit : OnceSys :=
OnceSys.mk OnceFlag.notStarted none 0 (fun _ => OncePC.start)

/-- States reachable by interleaving concurrent get_context calls. -/
def OnceReachable (s : OnceSys) : Prop :=
Relation.ReflTransGen OnceStep onceInit s

/-- Inductive invariant: the construction count is tied to the control
word (0 before completion, exactly 1 after), a thread that returned from
get_context saw a completed construction, and the thread running
init_context is the one recorded in the control word. -/
def OnceInv (s : OnceSys) : Prop :=
  (s.flag = OnceFlag.done → s.initCount = 1) ∧
  (s.flag ≠ OnceFlag.done → s.initCount = 0) ∧
  (∀ t, s.pc t = OncePC.ret → s.flag = OnceFlag.done) ∧
  (∀ t, s.pc t = OncePC.initializing → s.flag = OnceFlag.running t)

/-- The invariant holds initially. -/
theorem onceInv_init : OnceInv onceInit := by
  refine ⟨?_, ?_, ?_, ?_⟩ <;> simp [onceInit, OnceInv]

/-- The invariant is preserved by every step. -/
theorem onceInv_step (s s' : OnceSys) (h : OnceStep s s') (hs : OnceInv s) :
    OnceInv s' := by
  obtain ⟨hdone, hnotdone, hret, hinit⟩ := hs
  cases h with
  | win t hf hp =>
    refine ⟨by simp, fun _ => hnotdone (by simp [hf]), ?_, ?_⟩
    · intro u hu
      have hu' : Function.update s.pc t OncePC.initializing u = OncePC.ret :=
        hu
      rcases eq_or_ne u t with rfl | hne
      · rw [Function.update_same] at hu'
        cases hu'
      · rw [Function.update_noteq hne] at hu'
        have hflag := hret u hu'
        rw [hf] at hflag
        cases hflag
    · intro u hu
      have hu' : Function.update s.pc t OncePC.initializing u =
          OncePC.initializing := hu
      rcases eq_or_ne u t with rfl | hne
      · rfl
      · rw [Function.update_noteq hne] at hu'
        have hflag := hinit u hu'
        rw [hf] at hflag
        cases hflag
  | finish t c hf hp =>
    refine ⟨?_, fun hc => absurd rfl hc, fun u _ => rfl, ?_⟩
    · intro _
      have h0 : s.initCount = 0 := hnotdone (by simp [hf])
      show s.initCount + 1 = 1
      rw [h0]
    · intro u hu
      have hu' : Function.update s.pc t OncePC.ret u =
          OncePC.initializing := hu
      rcases eq_or_ne u t with rfl | hne
      · rw [Function.update_same] at hu'
        cases hu'
      · rw [Function.update_noteq hne] at hu'
        have hflag := hinit u hu'
        rw [hf] at hflag
        cases hflag
        exact absurd rfl hne
  | seeRunning t u hf hp =>
    refine ⟨fun hc => hdone hc, fun hc => hnotdone hc, ?_, ?_⟩
    · intro v hv
      have hv' : Function.update s.pc t OncePC.waiting v = OncePC.ret := hv
      rcases eq_or_ne v t with rfl | hne
      · rw [Function.update_same] at hv'
        cases hv'
      · rw [Function.update_noteq hne] at hv'
        exact hret v hv'
    · intro v hv
      have hv' : Function.update s.pc t OncePC.waiting v =
          OncePC.initializing := hv
      rcases eq_or_ne v t with rfl | hne
      · rw [Function.update_same] at hv'
        cases hv'
      · rw [Function.update_noteq hne] at hv'
        exact hinit v hv'
  | seeDone t hf hp =>
    refine ⟨fun hc => hdone hc, fun hc => hnotdone hc, fun v _ => hf, ?_⟩
    intro v hv
    have hv' : Function.update s.pc t OncePC.ret v =
        OncePC.initializing := hv
    rcases eq_or_ne v t with rfl | hne
    · rw [Function.update_same] at hv'
      cases hv'
    · rw [Function.update_noteq hne] at hv'
      have hflag := hinit v hv'
      rw [hf] at hflag
      cases hflag
  | wake t hf hp =>
    refine ⟨fun hc => hdone hc, fun hc => hnotdone hc, fun v _ => hf, ?_⟩
    intro v hv
    have hv' : Function.update s.pc t OncePC.ret v =
        OncePC.initializing := hv
    rcases eq_or_ne v t with rfl | hne
    · rw [Function.update_same] at hv'
      cases hv'
    · rw [Function.update_noteq hne] at hv'
      have hflag := hinit v hv'
      rw [hf] at hflag
      cases hflag



/-- The invariant holds in every reachable state. -/
theorem onceInv_reachable (s : OnceSys) (h : OnceReachable s) : OnceInv s := by
  induction h with
  | refl => exact onceInv_init
  | tail _ hstep ih => exact onceInv_step _ _ hstep ih

/-- Once construction is complete, no step changes the control word or
the stored context. -/
theorem once_ctx_stable (s s' : OnceSys) (h : OnceStep s s')
    (hd : s.flag = OnceFlag.done) :
    s'.flag = OnceFlag.done ∧ s'.ctx = s.ctx := by
  cases h with
  | win t hf hp => rw [hf] at hd; cases hd
  | finish t c hf hp => rw [hf] at hd; cases hd
  | seeRunning t u hf hp => exact ⟨hd, rfl⟩
  | seeDone t hf hp => exact ⟨hd, rfl⟩
  | wake t hf hp => exact ⟨hd, rfl⟩

/-- C8: under concurrent first use from any number of threads, in every
reachable state init_context has run at most once; every thread that has
returned from get_context did so with construction complete (never a
half-constructed state), and from then on the stored context never changes
and construction never reruns, so all callers observe the one shared
context; and if any thread has returned, the construction count is
exactly 1. -/
theorem context_constructed_at_most_once (s : OnceSys)
    (h : OnceReachable s) :
    s.initCount ≤ 1 ∧
    (∀ t, s.pc t = OncePC.ret → s.flag = OnceFlag.done) ∧
    (∀ t, s.pc t = OncePC.ret → s.initCount = 1) ∧
    (∀ s', OnceStep s s' → s.flag = OnceFlag.done →
      s'.flag = OnceFlag.done ∧ s'.ctx = s.ctx ∧
        s'.initCount = s.initCount) := by
  obtain ⟨hdone, hnotdone, hret, _⟩ := onceInv_reachable s h
  refine ⟨?_, hret, ?_, ?_⟩
  · by_cases hd : s.flag = OnceFlag.done
    · simp [hdone hd]
    · simp [hnotdone hd]
  · intro t ht; exact hdone (hret t ht)
  · intro s' hstep hd
    obtain ⟨hf', hc'⟩ := once_ctx_stable s s' hstep hd
    have h1 : s.initCount = 1 := hdone hd
    have hreach' : OnceReachable s' := Relation.ReflTransGen.tail h hstep
    obtain ⟨hdone', _, _, _⟩ := onceInv_reachable s' hreach'
    exact ⟨hf', hc', by rw [hdone' hf', h1]⟩

/-- C8 witness: the initial state is reachable and satisfies the theorem's
conclusions. -/
theorem context_constructed_at_most_once_witness :
    OnceReachable onceInit ∧
    (onceInit.initCount ≤ 1 ∧
      (∀ t, onceInit.pc t = OncePC.ret → onceInit.flag = OnceFlag.done) ∧
      (∀ t, onceInit.pc t = OncePC.ret → onceInit.initCount = 1) ∧
      (∀ s', OnceStep onceInit s' → onceInit.flag = OnceFlag.done →
        s'.flag = OnceFlag.done ∧ s'.ctx = onceInit.ctx ∧
          s'.initCount = onceInit.initCount)) :=
  ⟨Relation.ReflTransGen.refl,
    context_constructed_at_most_once onceInit Relation.ReflTransGen.refl⟩

/-- Sanity check of the embedding: a well-shaped key is accepted and a
31+1-byte one rejected in the all-succeeding environment. -/
theorem sanity_isValidPubKey :
    isValidPubKey envAllTrue (List.replicate 33 0) = true ∧
    isValidPubKey envAllTrue (List.replicate 32 0) = false := by decide

/-- Sanity check of the embedding: well-shaped ECDSA and Schnorr calls
succeed in the all-succeeding environment, and the ECDSA call acquires and
releases exactly slots 0, 1, 2 in order. -/
theorem sanity_verify_calls :
    ecdsaVerify envAllTrue (List.replicate 32 0) (List.replicate 64 0)
      (List.replicate 33 0) = true ∧
    schnorrVerify envAllTrue (List.replicate 64 0) []
      (List.replicate 32 0) = true ∧
    acquiredSlots (ecdsaVerifyRun envAllTrue (List.replicate 32 0)
      (List.replicate 64 0) (List.replicate 33 0)).2 = [0, 1, 2] ∧
    releasedSlots (ecdsaVerifyRun envAllTrue (List.replicate 32 0)
      (List.replicate 64 0) (List.replicate 33 0)).2 = [0, 1, 2] := by decide

end ScalusSecp256k1
